import Mathlib

/-!
Verification development for the Fuel-Quote-Backend repository.

Shallow embedding of:
- the in-memory auth stub (controllers/authController.js): `login`, `register`,
  `generateToken` over the mutable `validCredentials` list;
- the request-validation middleware (validation module): `validateFuelQuote`;
- the quote path (`createQuote`, `getQuoteHistory`, pricing), whose source file
  is absent from the repository snapshot (only its test suite is present), is
  modelled from the specification and calibrated against the test vectors.
-/

namespace FuelQuote

/-! ## Auth stub embedding (authController.js) -/

/-- A credential record as held in the in-memory `validCredentials` list:
the auth stub stores the username and the password string exactly as given. -/
structure Cred where
  username : String
  password : String
deriving Repr, DecidableEq

/-- The hardcoded initial contents of the `validCredentials` list. -/
def validCredentials : List Cred :=
  [⟨"user_name123", "Password123!"⟩, ⟨"user2", "password2@"⟩]

/-- A JSON response body: the auth controller emits at most a message, a token
and an error field; absent fields are `none`. -/
structure Body where
  message : Option String := none
  token : Option String := none
  error : Option String := none
deriving Repr, DecidableEq

/-- An HTTP-shaped response: status code plus JSON body. -/
structure Response where
  status : Nat
  body : Body
deriving Repr, DecidableEq

/-- Token generation in the auth stub: returns the hardcoded string
regardless of the username (authController.js, generateToken). -/
def generateToken (_username : String) : String :=
  "exampleToken"

/-- The credential check of `login`: some credential matches both the
username and the password. -/
def isValidUser (creds : List Cred) (username password : String) : Bool :=
  creds.any fun cred => cred.username == username && cred.password == password

/-- The `login` handler of the auth stub: 200 with a token when the pair
matches a stored credential, else 401 with a fixed error message. Read-only. -/
def login (creds : List Cred) (username password : String) : Response :=
  if isValidUser creds username password then
    { status := 200, body := { token := some (generateToken username) } }
  else
    { status := 401, body := { error := some "Invalid username or password" } }

/-- The uniqueness check of `register`: some credential has this username. -/
def isUsernameTaken (creds : List Cred) (username : String) : Bool :=
  creds.any fun cred => cred.username == username

/-- Result of `register`: the HTTP response together with the credential list
after the call (the JS handler mutates the global list in place). -/
structure RegisterResult where
  response : Response
  creds : List Cred
deriving Repr, DecidableEq

/-- The `register` handler of the auth stub: 409 and no state change when the
username is taken; otherwise pushes the raw `{username, password}` pair onto
the list and answers 201 with a message only (the token-issuing lines are
commented out in the source). -/
def register (creds : List Cred) (username password : String) : RegisterResult :=
  if isUsernameTaken creds username then
    { response := { status := 409, body := { error := some "Username already taken" } },
      creds := creds }
  else
    { response := { status := 201, body := { message := some "User registered successfully" } },
      creds := creds ++ [⟨username, password⟩] }

/-- Lookup of the credential stored for a username (first match, as the JS
`Array.prototype.some` / linear scan order would find it). -/
def findCred (creds : List Cred) (username : String) : Option Cred :=
  creds.find? fun cred => cred.username == username

/-! ## Validation middleware embedding (validateFuelQuote) -/

/-- JavaScript truthiness of an optional numeric field: `undefined` and `0`
are falsy, every other number is truthy. -/
def truthyNum : Option Int → Bool
  | none => false
  | some n => n != 0

/-- JavaScript truthiness of an optional string field: `undefined` and the
empty string are falsy. -/
def truthyStr : Option String → Bool
  | none => false
  | some s => s != ""

/-- Outcome of a middleware: either pass control on via `next()` or reject
with a status code and an error message. -/
inductive MiddlewareOutcome where
  | next
  | reject (status : Nat) (error : String)
deriving Repr, DecidableEq

/-- The `validateFuelQuote` middleware: rejects with 400 when
`gallonsRequested` or `deliveryDate` is falsy, otherwise calls `next()`. -/
def validateFuelQuote (gallonsRequested : Option Int) (deliveryDate : Option String) :
    MiddlewareOutcome :=
  if !truthyNum gallonsRequested || !truthyStr deliveryDate then
    .reject 400 "Gallons requested and delivery date are required"
  else
    .next

/-! ## Pricing engine and quote path, modelled from the spec -/

/-- Dollar amounts are embedded exactly: `E4` values are in units of a
ten-thousandth of a dollar, `Cents` values in hundredths. Rounding a dollar
amount to 2 decimal places (the `round2` of the spec, nearest cent with half
rounding up) is the conversion from `E4` units to cents. -/
def round2E4 (x : Nat) : Nat :=
  (x + 50) / 100

/-- Cents re-embedded in `E4` units, so the spec's `round2` can be applied to
a value that is already expressed in whole cents. -/
def centsToE4 (c : Nat) : Nat :=
  c * 100

/-- Modelled from the spec: the PricingEngine base per-gallon rate (the source
file controllers/pricing.js is absent from the repository snapshot; only the
createQuote tests exercise it, so the constants are calibrated against the
reference scenario of spec section 8 and both createQuote test vectors). Base
rate 1.50 dollars per gallon, in E4 units. -/
def basePriceE4 : Nat := 15000

/-- Modelled from the spec: location surcharge factor keyed by destination
jurisdiction, in hundredths; the calibration state TX gets the lower in-state
factor. -/
def locationFactorPct (state : String) : Nat :=
  if state = "TX" then 2 else 4

/-- Modelled from the spec: loyalty factor in hundredths, lower when the
requesting account has prior quote history (the loyalty discount). -/
def historyFactorPct (hasHistory : Bool) : Nat :=
  if hasHistory then 1 else 2

/-- Modelled from the spec: volume-tier factor in hundredths, lower marginal
rate at or above 1000 requested gallons. -/
def volumeFactorPct (gallons : Nat) : Nat :=
  if 1000 ≤ gallons then 2 else 3

/-- Modelled from the spec: fixed company profit factor in hundredths. -/
def companyProfitPct : Nat := 10

/-- Modelled from the spec: the per-gallon margin in E4 units, the base rate
scaled by the sum of the four rate factors. -/
def marginE4 (gallons : Nat) (state : String) (hasHistory : Bool) : Nat :=
  basePriceE4 * (locationFactorPct state + historyFactorPct hasHistory +
    volumeFactorPct gallons + companyProfitPct) / 100

/-- Modelled from the spec: the per-gallon price in cents, base plus margin,
rounded to 2 decimals once at the end. -/
def calculatePricePerGallon (gallons : Nat) (state : String) (hasHistory : Bool) : Nat :=
  round2E4 (basePriceE4 + marginE4 gallons state hasHistory)

/-- Modelled from the spec: the total amount due in cents, derived from the
already rounded per-gallon price (not from unrounded intermediates), with the
spec's final `round2` applied to the product. -/
def calculateTotalPrice (gallons : Nat) (state : String) (hasHistory : Bool) : Nat :=
  round2E4 (centsToE4 (calculatePricePerGallon gallons state hasHistory) * gallons)

/-- A persisted quote row, as returned by createQuote and listed by
getQuoteHistory; the two money fields are in cents. -/
structure Quote where
  quoteId : Nat
  userId : Nat
  gallonsRequested : Nat
  deliveryAddress : String
  deliveryDate : String
  pricePerGallon : Nat
  totalAmountDue : Nat
  createdAt : Nat
deriving Repr, DecidableEq

/-- The persistence collaborator state: the user-credentials table reduced to
its username-to-userID mapping, the fuel-quote table, and a clock assigning
`createdAt` stamps. -/
structure Db where
  users : List (String × Nat)
  quotes : List Quote
  now : Nat
deriving Repr, DecidableEq

/-- Resolution of a username to its internal userID. -/
def findUserId (db : Db) (username : String) : Option Nat :=
  (db.users.find? fun u => u.1 == username).map (·.2)

/-- The prior-quote count for a user, used to derive `hasHistory`. -/
def countQuotesForUser (db : Db) (uid : Nat) : Nat :=
  (db.quotes.filter fun q => q.userId == uid).length

/-- Result of createQuote: the HTTP status, the created quote or an error
message, and the persistence state after the call. -/
structure CreateQuoteResult where
  status : Nat
  quote : Option Quote
  error : Option String
  db : Db
deriving Repr, DecidableEq

/-- Modelled from the spec: `createQuote` of QuoteCore (the userController
source file is absent from the repository snapshot; only its test suite is
present). Resolves the username, answers 404 when unresolved, derives
`hasHistory` from the prior-quote count, invokes the pricing engine, persists
the new row with the next quote id and the current clock stamp, and answers
201 with the full persisted quote. -/
def createQuote (db : Db) (username : String) (gallons : Nat)
    (deliveryAddress deliveryDate state : String) : CreateQuoteResult :=
  match findUserId db username with
  | none =>
    { status := 404, quote := none, error := some "User not found", db := db }
  | some uid =>
    let hasHistory := 0 < countQuotesForUser db uid
    let price := calculatePricePerGallon gallons state hasHistory
    let total := calculateTotalPrice gallons state hasHistory
    let q : Quote :=
      { quoteId := db.quotes.length + 1, userId := uid, gallonsRequested := gallons,
        deliveryAddress := deliveryAddress, deliveryDate := deliveryDate,
        pricePerGallon := price, totalAmountDue := total, createdAt := db.now }
    { status := 201, quote := some q, error := none,
      db := { db with quotes := q :: db.quotes, now := db.now + 1 } }

/-- Ordering used by getQuoteHistory: most recent first, by `createdAt`
descending. -/
def newerFirst (a b : Quote) : Prop :=
  b.createdAt ≤ a.createdAt

instance : DecidableRel newerFirst :=
  fun a b => Nat.decLe b.createdAt a.createdAt

instance : IsTotal Quote newerFirst :=
  ⟨fun a b => Nat.le_total b.createdAt a.createdAt⟩

instance : IsTrans Quote newerFirst :=
  ⟨fun _ _ _ hab hbc => Nat.le_trans hbc hab⟩

/-- Modelled from the spec: `getQuoteHistory` of QuoteCore (source file absent
from the snapshot; its test shows the single SQL query selecting the user's
rows ordered by created_at descending). Returns status 200 with the quotes
owned by the resolved user, most recent first; an unknown username resolves to
no rows and an empty list is an ordinary 200 result. -/
def getQuoteHistory (db : Db) (username : String) : Nat × List Quote :=
  match findUserId db username with
  | none => (200, [])
  | some uid =>
    (200, List.insertionSort newerFirst (db.quotes.filter fun q => q.userId == uid))

/-! ## Concrete states for the reference scenario -/

/-- A prior quote on file for user 1, so that the reference scenario's
account has quote history. -/
def priorQuote : Quote :=
  { quoteId := 1, userId := 1, gallonsRequested := 50,
    deliveryAddress := "123 Main St", deliveryDate := "2024-03-01",
    pricePerGallon := 176, totalAmountDue := 8800, createdAt := 0 }

/-- The persistence state of the reference scenario: the account `testuser`
has userID 1 and one prior quote (hence `hasHistory` derives to true). -/
def referenceDb : Db :=
  { users := [("testuser", 1)], quotes := [priorQuote], now := 1 }

/-- The quote the reference-scenario createQuote call produces: per-gallon
price 174 cents (1.74 dollars) and total 17400 cents (174 dollars). -/
def refQuote : Quote :=
  { quoteId := 2, userId := 1, gallonsRequested := 100,
    deliveryAddress := "123 Main St", deliveryDate := "2024-04-10",
    pricePerGallon := 174, totalAmountDue := 17400, createdAt := 1 }

/-! ## Helper lemmas -/

/-- The spec's `round2` is the identity on an amount that is already a whole
number of cents. -/
theorem round2E4_centsToE4 (c : Nat) : round2E4 (centsToE4 c) = c := by
  unfold round2E4 centsToE4
  omega

/-- The total is exactly the rounded per-gallon price times the gallon count:
the final `round2` introduces no drift. -/
theorem calculateTotalPrice_eq_mul (g : Nat) (st : String) (hh : Bool) :
    calculateTotalPrice g st hh = calculatePricePerGallon g st hh * g := by
  unfold calculateTotalPrice
  rw [show centsToE4 (calculatePricePerGallon g st hh) * g
      = centsToE4 (calculatePricePerGallon g st hh * g) by unfold centsToE4; ring]
  exact round2E4_centsToE4 _

/-- After any `register` call for username `u`, the username `u` is taken. -/
theorem isUsernameTaken_after_register (creds : List Cred) (u p : String) :
    isUsernameTaken (register creds u p).creds u = true := by
  unfold register
  by_cases h : isUsernameTaken creds u
  · simp [h]
  · simp only [h, Bool.false_eq_true, if_false]
    unfold isUsernameTaken at h ⊢
    rw [List.any_append]
    simp

/-- A login attempt for a username nobody holds cannot pass the credential
check: the check requires the username fields to match. -/
theorem isValidUser_false_of_not_taken (creds : List Cred) (u p : String)
    (h : isUsernameTaken creds u = false) : isValidUser creds u p = false := by
  unfold isUsernameTaken at h
  unfold isValidUser
  rw [List.any_eq_false] at h ⊢
  intro cred hc
  simp only [Bool.and_eq_true, not_and]
  intro hu
  exact absurd hu (by simpa using h cred hc)

/-! ## Claim theorems -/

/-- C1: in the reference scenario (account `testuser` with userID 1 and prior
history, request for 100 gallons to state TX), createQuote succeeds with
status 201 and returns a quote whose per-gallon price is 174 cents (1.74
dollars) and whose total amount due is 17400 cents (174 dollars). -/
theorem createQuote_reference_scenario :
    (createQuote referenceDb "testuser" 100 "123 Main St" "2024-04-10" "TX").status = 201 ∧
    (createQuote referenceDb "testuser" 100 "123 Main St" "2024-04-10" "TX").quote.map
      Quote.pricePerGallon = some 174 ∧
    (createQuote referenceDb "testuser" 100 "123 Main St" "2024-04-10" "TX").quote.map
      Quote.totalAmountDue = some 17400 := by
  decide

/-- C2: every quote createQuote returns (and persists) has a total amount due
equal to the spec's round2 of its own (already rounded) per-gallon price
times the requested gallons; the per-gallon price is a fixed point of round2,
and the total is exactly the product with no drift from unrounded
intermediates. -/
theorem createQuote_total_from_rounded_price (db : Db) (username : String)
    (gallons : Nat) (addr date st : String) (q : Quote)
    (h : (createQuote db username gallons addr date st).quote = some q) :
    q.totalAmountDue = round2E4 (centsToE4 q.pricePerGallon * q.gallonsRequested) ∧
    round2E4 (centsToE4 q.pricePerGallon) = q.pricePerGallon ∧
    q.totalAmountDue = q.pricePerGallon * q.gallonsRequested ∧
    q ∈ (createQuote db username gallons addr date st).db.quotes := by
  unfold createQuote at h ⊢
  cases hf : findUserId db username with
  | none => rw [hf] at h; simp at h
  | some uid =>
    rw [hf] at h
    dsimp only at h ⊢
    simp only [Option.some.injEq] at h
    subst h
    exact ⟨rfl, round2E4_centsToE4 _, calculateTotalPrice_eq_mul .., by simp⟩

/-- C2 witness: the reference-scenario quote instantiates the total-derivation
invariant. -/
theorem createQuote_total_from_rounded_price_witness :
    refQuote.totalAmountDue =
      round2E4 (centsToE4 refQuote.pricePerGallon * refQuote.gallonsRequested) :=
  (createQuote_total_from_rounded_price referenceDb "testuser" 100 "123 Main St"
    "2024-04-10" "TX" refQuote (by decide)).1

/-- C3: registering the same username twice makes the second call answer 409
with the conflict error, leave the credential list untouched, and leave the
credential stored for that username exactly as the first call left it. -/
theorem register_after_register_conflict (creds : List Cred) (u p1 p2 : String) :
    (register (register creds u p1).creds u p2).response =
      { status := 409, body := { error := some "Username already taken" } } ∧
    (register (register creds u p1).creds u p2).creds = (register creds u p1).creds ∧
    findCred (register (register creds u p1).creds u p2).creds u =
      findCred (register creds u p1).creds u := by
  have htaken := isUsernameTaken_after_register creds u p1
  generalize hr : register creds u p1 = r1 at htaken ⊢
  simp [register, htaken]

/-- C4 counterexample: registering the fresh username `testuser` against the
initial credential list answers 201, but the response body carries no token
(the token-issuing lines of the handler are commented out), refuting the
claim that the body contains both a message and the token. -/
theorem register_fresh_no_token_counterexample :
    (register validCredentials "testuser" "testpassword123@").response.status = 201 ∧
    (register validCredentials "testuser" "testpassword123@").response.body.token = none := by
  decide

/-- C4 amended: registering a username that does not already exist stores the
new account, answers 201 with a success message, and issues no session token
(the token field of the body is absent). -/
theorem register_fresh_behavior (creds : List Cred) (u p : String)
    (h : isUsernameTaken creds u = false) :
    (register creds u p).response.status = 201 ∧
    (register creds u p).response.body.message = some "User registered successfully" ∧
    (register creds u p).response.body.token = none ∧
    (register creds u p).creds = creds ++ [⟨u, p⟩] := by
  simp [register, h]

/-- C4 witness: the amended registration behavior at the concrete fresh
username `testuser`. -/
theorem register_fresh_behavior_witness :
    (register validCredentials "testuser" "testpassword123@").response.status = 201 ∧
    (register validCredentials "testuser" "testpassword123@").creds =
      validCredentials ++ [⟨"testuser", "testpassword123@"⟩] :=
  ⟨(register_fresh_behavior validCredentials "testuser" "testpassword123@" (by decide)).1,
    (register_fresh_behavior validCredentials "testuser" "testpassword123@" (by decide)).2.2.2⟩

/-- C5 counterexample: after a successful registration the credential stored
for the new username is the plaintext password verbatim, refuting the claim
that only a hash is ever stored. -/
theorem register_stores_plaintext_counterexample :
    findCred (register validCredentials "testuser" "secretpw").creds "testuser" =
      some ⟨"testuser", "secretpw"⟩ := by
  decide

/-- C5 amended: every registration that succeeds in the in-memory auth stub
stores the supplied password verbatim (plaintext) as the credential for the
new username; no hashing is applied. -/
theorem register_stores_plaintext (creds : List Cred) (u p : String)
    (h : isUsernameTaken creds u = false) :
    findCred (register creds u p).creds u = some ⟨u, p⟩ := by
  simp only [register, h, Bool.false_eq_true, if_false]
  unfold findCred
  rw [List.find?_append]
  have hnone : (creds.find? fun cred => cred.username == u) = none := by
    rw [List.find?_eq_none]
    intro cred hc
    unfold isUsernameTaken at h
    rw [List.any_eq_false] at h
    simpa using h cred hc
  rw [hnone]
  simp

/-- C5 witness: the amended plaintext-storage statement at a concrete fresh
username. -/
theorem register_stores_plaintext_witness :
    findCred (register validCredentials "freshuser" "hunter2pw").creds "freshuser" =
      some ⟨"freshuser", "hunter2pw"⟩ :=
  register_stores_plaintext validCredentials "freshuser" "hunter2pw" (by decide)

/-- C6: a login for a username nobody holds and a login for an existing
username with a wrong password produce the very same response, 401 with the
fixed error message, so the response reveals nothing about whether the
username exists. -/
theorem login_failure_indistinguishable (creds : List Cred) (u1 p1 u2 p2 : String)
    (h1 : isUsernameTaken creds u1 = false)
    (h2 : isValidUser creds u2 p2 = false) :
    login creds u1 p1 = login creds u2 p2 ∧
    login creds u1 p1 =
      { status := 401, body := { error := some "Invalid username or password" } } := by
  have hv1 := isValidUser_false_of_not_taken creds u1 p1 h1
  constructor
  · unfold login
    rw [hv1, h2]
    simp
  · unfold login
    rw [hv1]
    simp

/-- C6 witness: the nonexistent username and the wrong password for the
existing `user2` get literally equal 401 responses on the initial list. -/
theorem login_failure_indistinguishable_witness :
    login validCredentials "nonexistentuser" "testpassword123@" =
      login validCredentials "user2" "wrongpassword" :=
  (login_failure_indistinguishable validCredentials "nonexistentuser" "testpassword123@"
    "user2" "wrongpassword" (by decide) (by decide)).1

/-- C7: registering a not-yet-taken username and then logging in with the same
pair succeeds: the registration answers 201 and the login answers 200 with a
token. -/
theorem register_then_login_succeeds (creds : List Cred) (u p : String)
    (h : isUsernameTaken creds u = false) :
    (register creds u p).response.status = 201 ∧
    login (register creds u p).creds u p =
      { status := 200, body := { token := some "exampleToken" } } := by
  have hcreds : (register creds u p).creds = creds ++ [⟨u, p⟩] := by
    simp [register, h]
  have hvalid : isValidUser (register creds u p).creds u p = true := by
    rw [hcreds]
    unfold isValidUser
    rw [List.any_append]
    simp
  refine ⟨by simp [register, h], ?_⟩
  unfold login
  rw [hvalid]
  simp
  rfl

/-- C7 witness: the credential round-trip at the concrete fresh pair from the
test suite. -/
theorem register_then_login_succeeds_witness :
    login (register validCredentials "testuser" "testpassword123@").creds
      "testuser" "testpassword123@" =
      { status := 200, body := { token := some "exampleToken" } } :=
  (register_then_login_succeeds validCredentials "testuser" "testpassword123@"
    (by decide)).2

/-- C8 counterexample: a request with gallonsRequested equal to minus one,
which is not positive, passes validateFuelQuote (the middleware only checks
JavaScript truthiness), refuting the claim that every request with
gallonsRequested at most zero is rejected before pricing. -/
theorem validateFuelQuote_negative_passes_counterexample :
    (-1 : Int) ≤ 0 ∧
    validateFuelQuote (some (-1)) (some "2024-04-10") = MiddlewareOutcome.next := by
  decide

/-- C8 amended: validateFuelQuote passes a request on to the pricing path
exactly when gallonsRequested is present and nonzero and deliveryDate is
present and nonempty; in particular negative gallonsRequested values are not
rejected and reach the pricing computation. -/
theorem validateFuelQuote_rejects_only_falsy (g : Option Int) (d : Option String) :
    validateFuelQuote g d = MiddlewareOutcome.next ↔
      (∃ n, g = some n ∧ n ≠ 0) ∧ ∃ s, d = some s ∧ s ≠ "" := by
  cases g with
  | none => simp [validateFuelQuote, truthyNum]
  | some n =>
    cases d with
    | none => simp [validateFuelQuote, truthyNum, truthyStr]
    | some s =>
      by_cases hn : n = 0 <;> by_cases hs : s = "" <;>
        simp [validateFuelQuote, truthyNum, truthyStr, hn, hs]

/-- C9: when the username resolves to a user id, getQuoteHistory answers 200
with exactly the quotes owned by that user, ordered by createdAt descending;
the characterization makes the empty list the ordinary non-error result for a
user with no quotes. -/
theorem getQuoteHistory_owned_sorted (db : Db) (username : String) (uid : Nat)
    (h : findUserId db username = some uid) :
    (getQuoteHistory db username).1 = 200 ∧
    (∀ q : Quote, q ∈ (getQuoteHistory db username).2 ↔ q ∈ db.quotes ∧ q.userId = uid) ∧
    List.Sorted newerFirst (getQuoteHistory db username).2 := by
  unfold getQuoteHistory
  rw [h]
  dsimp only
  refine ⟨rfl, ?_, ?_⟩
  · intro q
    rw [List.mem_insertionSort, List.mem_filter]
    simp
  · exact List.sorted_insertionSort newerFirst _

/-- C9 witness: the history of `testuser` in the reference state is a 200
result sorted most recent first. -/
theorem getQuoteHistory_owned_sorted_witness :
    (getQuoteHistory referenceDb "testuser").1 = 200 ∧
    List.Sorted newerFirst (getQuoteHistory referenceDb "testuser").2 :=
  ⟨(getQuoteHistory_owned_sorted referenceDb "testuser" 1 (by decide)).1,
    (getQuoteHistory_owned_sorted referenceDb "testuser" 1 (by decide)).2.2⟩

/-- C10: generateToken is the constant string `exampleToken`, so every
successful login carries exactly that token, and any two successful logins
(whatever credentials were presented) carry equal tokens. -/
theorem login_token_constant (creds1 : List Cred) (u1 p1 : String)
    (creds2 : List Cred) (u2 p2 : String)
    (h1 : (login creds1 u1 p1).status = 200)
    (h2 : (login creds2 u2 p2).status = 200) :
    generateToken u1 = "exampleToken" ∧
    (login creds1 u1 p1).body.token = some "exampleToken" ∧
    (login creds1 u1 p1).body.token = (login creds2 u2 p2).body.token := by
  have t1 : (login creds1 u1 p1).body.token = some "exampleToken" := by
    unfold login at h1 ⊢
    by_cases hv : isValidUser creds1 u1 p1 = true
    · simp [hv, generateToken]
    · simp [hv] at h1
  have t2 : (login creds2 u2 p2).body.token = some "exampleToken" := by
    unfold login at h2 ⊢
    by_cases hv : isValidUser creds2 u2 p2 = true
    · simp [hv, generateToken]
    · simp [hv] at h2
  exact ⟨rfl, t1, t1.trans t2.symm⟩

/-- C10 witness: two different valid credential pairs from the hardcoded list
obtain literally the same token. -/
theorem login_token_constant_witness :
    (login validCredentials "user_name123" "Password123!").body.token =
      (login validCredentials "user2" "password2@").body.token :=
  (login_token_constant validCredentials "user_name123" "Password123!"
    validCredentials "user2" "password2@" (by decide) (by decide)).2.2

end FuelQuote
